import Mathlib

/-!
Shallow embedding of the real-time synchronization core of the OwlBoard web
front end: the optimistic comment store and its WebSocket reconciliation
handlers (useComments / useCommentsWebSocket), the chat WebSocket hook
(useChatWebSocket), the chat API service (chatApi.ts) and the comments REST
gateway (CommentsApiService).  JavaScript runtime values are embedded as
follows: `undefined` and `null` become `Option.none`; JavaScript string
truthiness (empty string falsy) is modelled by `jsTruthy`; numeric values the
claims touch (coordinates, attempt counters, delays) are embedded as `Int`
or `Nat`; a REST call is embedded as a function of the received response;
callbacks that set React state are embedded as functions from the previous
store value to the next one, so interleavings of local mutations and inbound
events are function compositions.  A thrown JavaScript error is an
`Except.error` carrying the error message.
-/

/-- JavaScript truthiness of a possibly absent string: `undefined`, `null`
and the empty string are falsy. -/
def jsTruthy : Option String → Bool
  | none => false
  | some s => s != ""

/-- The JavaScript expression `o || d` for a possibly absent string `o` with
default `d`: yields the value of `o` when truthy, else `d`. -/
def jsOrS : Option String → String → String
  | none, d => d
  | some s, d => if s = "" then d else s

/-- Template-literal rendering of a possibly absent number: JavaScript
prints an absent value as the text undefined. -/
def jsNumStr : Option Int → String
  | none => "undefined"
  | some n => toString n

/-- The characters removed by the JavaScript string trim method (the ASCII
portion of its whitespace set: space, tab, line feed, carriage return,
vertical tab, form feed). -/
def jsWhitespaceChar (ch : Char) : Bool :=
  ch == ' ' || ch == '\t' || ch == '\n' || ch == '\r' ||
    ch == Char.ofNat 11 || ch == Char.ofNat 12

/-- The JavaScript string trim method: strip leading and trailing
whitespace. -/
def jsTrim (s : String) : String :=
  String.mk (((s.data.dropWhile jsWhitespaceChar).reverse.dropWhile
    jsWhitespaceChar).reverse)

/-- The frontend comment record (`CommentDef`).  Temporary (PENDING)
comments have `backendId := none` and no timestamps; the coordinate fields
are optional because a backend record with fewer than two coordinates
yields `undefined` there. -/
structure CommentDef where
  id : String
  backendId : Option String
  text : String
  x : Option Int
  y : Option Int
  userName : String
  dashboardId : String
  userId : String
  createdAt : Option String
  updatedAt : Option String
  deriving DecidableEq

/-- The backend comment payload (`CommentResponse` in commentsApi.ts); the
identifier may arrive in the `_id` field or in the `id` field, both
declared optional by the source. -/
structure CommentResponse where
  _id : Option String
  id : Option String
  dashboard_id : String
  user_id : String
  user_name : Option String
  content : String
  coordinates : List Int
  created_at : String
  updated_at : String
  deriving DecidableEq

/-- The body of a create request (`CreateCommentRequest`). -/
structure CreateCommentRequest where
  content : String
  coordinates : String
  user_name : Option String
  deriving DecidableEq

/-- `CommentsApiService.convertToFrontendComment`: the identifier is
`backendComment._id || backendComment.id || ''`; the display name defaults
to Usuario; both `id` and `backendId` receive the same identifier. -/
def convertToFrontendComment (backendComment : CommentResponse) : CommentDef :=
  let commentId := jsOrS backendComment._id (jsOrS backendComment.id "")
  { id := commentId
    x := backendComment.coordinates.get? 0
    y := backendComment.coordinates.get? 1
    text := backendComment.content
    userName := jsOrS backendComment.user_name "Usuario"
    backendId := some commentId
    dashboardId := backendComment.dashboard_id
    userId := backendComment.user_id
    createdAt := some backendComment.created_at
    updatedAt := some backendComment.updated_at }

/-- `CommentsApiService.convertToBackendComment`: coordinates are rendered
as the template literal joining x and y with a comma. -/
def convertToBackendComment (frontendComment : CommentDef) : CreateCommentRequest :=
  { content := frontendComment.text
    coordinates := jsNumStr frontendComment.x ++ "," ++ jsNumStr frontendComment.y
    user_name := some frontendComment.userName }

/-- The duplicate test of `handleCommentCreated` (the inline predicate of
its some-call): the stored `backendId` equals the converted identifier, or
is truthy and equals the raw `_id` of the payload. -/
def createdSeenMatch (frontend : CommentDef) (backendComment : CommentResponse)
    (c : CommentDef) : Bool :=
  (c.backendId == frontend.backendId) ||
    (jsTruthy c.backendId && (c.backendId == backendComment._id))

/-- The overwrite test of the maps inside `handleCommentCreated` and
`handleCommentUpdated`: like the duplicate test but without the truthiness
guard on the stored `backendId`. -/
def updatedMatch (frontend : CommentDef) (backendComment : CommentResponse)
    (c : CommentDef) : Bool :=
  (c.backendId == frontend.backendId) || (c.backendId == backendComment._id)

/-- The entrywise updater of the maps inside `handleCommentCreated` and
`handleCommentUpdated`. -/
def updatedReplace (frontend : CommentDef) (backendComment : CommentResponse)
    (c : CommentDef) : CommentDef :=
  if updatedMatch frontend backendComment c then frontend else c

/-- `handleCommentCreated` in useComments: convert the payload, test whether
a comment with the same backend identifier already exists, and either
overwrite the matching entries in place or append. -/
def handleCommentCreated (prev : List CommentDef) (backendComment : CommentResponse) :
    List CommentDef :=
  if prev.any
      (createdSeenMatch (convertToFrontendComment backendComment) backendComment) then
    prev.map (updatedReplace (convertToFrontendComment backendComment) backendComment)
  else
    prev ++ [convertToFrontendComment backendComment]

/-- `handleCommentUpdated` in useComments: overwrite every entry whose
backend identifier matches the payload, leaving the rest in place. -/
def handleCommentUpdated (prev : List CommentDef) (backendComment : CommentResponse) :
    List CommentDef :=
  prev.map (updatedReplace (convertToFrontendComment backendComment) backendComment)

/-- `handleCommentDeleted` in useComments: drop every entry whose
`backendId` equals the deleted identifier. -/
def handleCommentDeleted (prev : List CommentDef) (commentId : String) : List CommentDef :=
  prev.filter fun c => !(c.backendId == some commentId)

/-- `createTemporaryComment` in useComments: mints the identifier from the
current clock, reads the display name from localStorage with default
Usuario, appends a PENDING record and returns it. -/
def createTemporaryComment (prev : List CommentDef) (nowMs : Nat) (x y : Int)
    (storedName : Option String) (dashboardId userId : String) :
    CommentDef × List CommentDef :=
  let tempComment : CommentDef :=
    { id := "temp-" ++ toString nowMs
      backendId := none
      text := ""
      x := some x
      y := some y
      userName := jsOrS storedName "Usuario"
      dashboardId := dashboardId
      userId := userId
      createdAt := none
      updatedAt := none }
  (tempComment, prev ++ [tempComment])

/-- Outcome of `saveTemporaryComment`: the temp record was not found, the
create call threw, or the converted confirmed record was stored. -/
inductive SaveOutcome where
  | notFound
  | failed (errorMsg : String)
  | saved (converted : CommentDef)
  deriving DecidableEq

/-- Result of `saveTemporaryComment`: the returned outcome, the request that
was issued to the gateway (none when no call was made), and the store
contents afterwards. -/
structure SaveResult where
  outcome : SaveOutcome
  request : Option CreateCommentRequest
  store : List CommentDef
  deriving DecidableEq

/-- The success continuation of `saveTemporaryComment` (the updater passed
to setComments after the create call resolves): replace the record whose
`id` equals the temp identifier by the converted confirmed record. -/
def persistContinuation (tempId : String) (converted : CommentDef)
    (prev : List CommentDef) : List CommentDef :=
  prev.map fun c => if c.id = tempId then converted else c

/-- `saveTemporaryComment` in useComments: find the temp record, issue the
create call built from it with the new text, and on success replace it in
place (overriding the display name from localStorage when truthy); on
failure rethrow, leaving the store untouched.  The response of the REST
call is a parameter (`serverReply`). -/
def saveTemporaryComment (prev : List CommentDef) (tempId text : String)
    (storedName : Option String) (serverReply : Except String CommentResponse) :
    SaveResult :=
  match prev.find? (fun c => c.id == tempId) with
  | none => { outcome := SaveOutcome.notFound, request := none, store := prev }
  | some comment =>
    let request := convertToBackendComment { comment with text := text }
    match serverReply with
    | Except.error e =>
      { outcome := SaveOutcome.failed e, request := some request, store := prev }
    | Except.ok newComment =>
      let converted := convertToFrontendComment newComment
      let converted :=
        if jsTruthy storedName then { converted with userName := jsOrS storedName "" }
        else converted
      { outcome := SaveOutcome.saved converted
        request := some request
        store := persistContinuation tempId converted prev }

/-- Number of entities in the store carrying the given server identifier. -/
def countRemote (rid : String) (store : List CommentDef) : Nat :=
  (store.filter fun c => c.backendId == some rid).length

/-- Decoded inbound frame of the comments stream, mirroring the switch in
the useCommentsWebSocket message handler. -/
inductive CommentsInbound where
  | comment_created (r : CommentResponse)
  | comment_updated (r : CommentResponse)
  | comment_deleted (comment_id : String)
  | unknownType (type : String)
  deriving DecidableEq

/-- Dispatch of one decoded comments event to the store handlers; an
unknown type is logged and ignored. -/
def applyCommentEvent (store : List CommentDef) : CommentsInbound → List CommentDef
  | CommentsInbound.comment_created r => handleCommentCreated store r
  | CommentsInbound.comment_updated r => handleCommentUpdated store r
  | CommentsInbound.comment_deleted cid => handleCommentDeleted store cid
  | CommentsInbound.unknownType _ => store

/-- The comments-stream message handler: JSON parsing of the raw frame is a
parameter (`Except.error` when `JSON.parse` threw); the catch block drops
the frame, so a parse failure leaves the store untouched. -/
def commentsOnMessage (store : List CommentDef)
    (frame : Except String CommentsInbound) : List CommentDef :=
  match frame with
  | Except.error _ => store
  | Except.ok ev => applyCommentEvent store ev

/-- WebSocket ready states. -/
inductive WsReadyState where
  | CONNECTING
  | OPEN
  | CLOSING
  | CLOSED
  deriving DecidableEq

/-- An outbound frame of the chat hook: stringified `{type, data: {message}}`. -/
structure HookOutFrame where
  type : String
  message : String
  deriving DecidableEq

/-- Result of the chat hook sendMessage: the returned boolean, the frames
passed to the socket send, and the error string set on the hook state.
The embedding carries every outbound frame explicitly in `sent`, so there
is no buffered outbound queue anywhere in the model, as in the source. -/
structure HookSendResult where
  ret : Bool
  sent : List HookOutFrame
  errorSet : Option String
  deriving DecidableEq

/-- `sendMessage` of useChatWebSocket: fail fast when the socket is absent
or not OPEN; drop a message that trims to the empty string; otherwise send
the trimmed content (the try/catch around the send is modelled by the
`sendFails` parameter). -/
def sendMessage (ws : Option WsReadyState) (message : String) (sendFails : Bool) :
    HookSendResult :=
  if ws ≠ some WsReadyState.OPEN then
    { ret := false, sent := [], errorSet := some "Not connected to chat" }
  else if jsTrim message = "" then
    { ret := false, sent := [], errorSet := none }
  else if sendFails then
    { ret := false, sent := [], errorSet := some "Failed to send message" }
  else
    { ret := true
      sent := [{ type := "chat_message", message := jsTrim message }]
      errorSet := none }

/-- An outbound frame of the global helper: stringified `{type, data}` with
an arbitrary payload. -/
structure EventOutFrame where
  type : String
  data : String
  deriving DecidableEq

/-- `window.sendChatWsEvent` installed by the chat hook on open: returns
false without sending when the socket is absent or not OPEN, false when the
send throws, true otherwise. -/
def sendChatWsEvent (ws : Option WsReadyState) (type : String) (data : String)
    (sendFails : Bool) : Bool × List EventOutFrame :=
  if ws ≠ some WsReadyState.OPEN then (false, [])
  else if sendFails then (false, [])
  else (true, [{ type := type, data := data }])

/-- An outbound frame of the chat API service: stringified
`{type, data: {content, message_type}}`. -/
structure SvcOutFrame where
  type : String
  content : String
  message_type : String
  deriving DecidableEq

/-- The chat message record of chatApi.ts. -/
structure SvcChatMessage where
  id : String
  user_id : String
  username : String
  content : String
  message_type : String
  timestamp : String
  dashboard_id : String
  reply_to : Option String
  deriving DecidableEq

/-- Result of `ChatApiService.sendMessage`: the JavaScript return value of
the call (`none` embeds undefined, the value a void function returns), the
frames passed to the socket, and the optimistic messages delivered to the
registered message handlers. -/
structure ChatSvcSendResult where
  ret : Option Bool
  sent : List SvcOutFrame
  notified : List SvcChatMessage
  deriving DecidableEq

/-- `ChatApiService.sendMessage`: when the socket is OPEN, notify handlers
with an optimistic temporary message and send the frame; otherwise log and
do nothing.  Neither branch has a return statement, so the call evaluates
to undefined (`none`) in both. -/
def chatApiSendMessage (ws : Option WsReadyState)
    (message userId username dashboardId : String) (nowMs : Nat)
    (randomSuffix nowIso : String) : ChatSvcSendResult :=
  if ws = some WsReadyState.OPEN then
    let optimisticMessage : SvcChatMessage :=
      { id := "temp_" ++ toString nowMs ++ "_" ++ randomSuffix
        user_id := userId
        username := username
        content := message
        message_type := "text"
        timestamp := nowIso
        dashboard_id := dashboardId
        reply_to := none }
    { ret := none
      sent := [{ type := "chat_message", content := message, message_type := "text" }]
      notified := [optimisticMessage] }
  else
    { ret := none, sent := [], notified := [] }

/-- What a close handler does next: schedule a reconnect after a delay
(recording the attempt counter once the scheduled attempt starts), or stop
retrying, optionally surfacing an error message to the hook state. -/
inductive CloseAction where
  | reconnect (delayMs : Nat) (attemptsAfter : Nat)
  | giveUp (surfacedError : Option String)
  deriving DecidableEq

/-- The onclose handler of useChatWebSocket: the delay is computed from the
attempt counter before it is incremented (the increment happens inside the
scheduled timeout). -/
def chatOnClose (attempts : Nat) : CloseAction :=
  if attempts < 5 then
    CloseAction.reconnect (min (1000 * 2 ^ attempts) 10000) (attempts + 1)
  else
    CloseAction.giveUp (some "Failed to connect after multiple attempts")

/-- The onclose handler of useCommentsWebSocket: the counter is incremented
first and the delay computed from the incremented value; reaching the
maximum only logs, surfacing nothing. -/
def commentsOnClose (attempts : Nat) : CloseAction :=
  if attempts < 5 then
    CloseAction.reconnect (min (1000 * 2 ^ (attempts + 1)) 10000) (attempts + 1)
  else
    CloseAction.giveUp none

/-- Message kind of the chat hook records. -/
inductive HookMsgType where
  | user
  | system
  deriving DecidableEq

/-- The chat message record of useChatWebSocket. -/
structure HookChatMessage where
  id : String
  user_id : String
  username : String
  message : String
  timestamp : String
  message_type : HookMsgType
  deriving DecidableEq

/-- A connected user as kept by the chat hook. -/
structure ConnectedUser where
  user_id : String
  username : String
  status : String
  deriving DecidableEq

/-- The React state owned by useChatWebSocket that its message handler can
mutate. -/
structure ChatState where
  messages : List HookChatMessage
  connectedUsers : List ConnectedUser
  error : Option String
  deriving DecidableEq

/-- Decoded inbound frame of the chat stream, mirroring the branches of the
useChatWebSocket message handler. -/
inductive ChatInbound where
  | chat_message (id user_id username content timestamp : String)
  | user_joined (username timestamp : String)
  | user_left (username timestamp : String)
  | comment_created (payload : String)
  | users_list (users : List ConnectedUser)
  | errorFrame (message : String)
  | unknownType (type : String)
  deriving DecidableEq

/-- Result of one run of the chat message handler: the updated state plus
the side effects it fired (a refetch of connected users, a window event
dispatch for comment_created). -/
structure ChatMsgResult where
  state : ChatState
  fetchedUsers : Bool
  dispatchedCommentCreated : Bool
  deriving DecidableEq

/-- The onmessage handler of useChatWebSocket.  JSON parsing of the raw
frame is a parameter; the surrounding try/catch turns a parse failure into
a logged no-op.  A chat_message appends a user message; join/leave append a
system message stamped with the current clock and refetch the users;
users_list replaces the connected users; an error frame sets the error. -/
def chatOnMessage (st : ChatState) (nowMs : Nat)
    (frame : Except String ChatInbound) : ChatMsgResult :=
  match frame with
  | Except.error _ =>
    { state := st, fetchedUsers := false, dispatchedCommentCreated := false }
  | Except.ok (ChatInbound.chat_message id uid un content ts) =>
    { state := { st with messages := st.messages ++
        [{ id := id, user_id := uid, username := un, message := content,
           timestamp := ts, message_type := HookMsgType.user }] }
      fetchedUsers := false
      dispatchedCommentCreated := false }
  | Except.ok (ChatInbound.user_joined un ts) =>
    { state := { st with messages := st.messages ++
        [{ id := "system-" ++ toString nowMs, user_id := "system",
           username := "System", message := un ++ " joined the chat",
           timestamp := ts, message_type := HookMsgType.system }] }
      fetchedUsers := true
      dispatchedCommentCreated := false }
  | Except.ok (ChatInbound.user_left un ts) =>
    { state := { st with messages := st.messages ++
        [{ id := "system-" ++ toString nowMs, user_id := "system",
           username := "System", message := un ++ " left the chat",
           timestamp := ts, message_type := HookMsgType.system }] }
      fetchedUsers := true
      dispatchedCommentCreated := false }
  | Except.ok (ChatInbound.comment_created _) =>
    { state := st, fetchedUsers := false, dispatchedCommentCreated := true }
  | Except.ok (ChatInbound.users_list users) =>
    { state := { st with connectedUsers := users }
      fetchedUsers := false
      dispatchedCommentCreated := false }
  | Except.ok (ChatInbound.errorFrame m) =>
    { state := { st with error := some m }
      fetchedUsers := false
      dispatchedCommentCreated := false }
  | Except.ok (ChatInbound.unknownType _) =>
    { state := st, fetchedUsers := false, dispatchedCommentCreated := false }

/-- `Response.ok` of the fetch API: status in the inclusive range 200-299. -/
def respOk (status : Nat) : Bool := decide (200 ≤ status ∧ status ≤ 299)

/-- Response received by the comments list call; `jsonBody` embeds the body
parse (`Except.error` when `response.json()` would throw). -/
structure ListCommentsResponse where
  status : Nat
  statusText : String
  jsonBody : Except String (List CommentResponse)

/-- `CommentsApiService.getCommentsByDashboard`: a 404 resolves with the
empty list; any other non-success status throws an error embedding the
status code and status text. -/
def getCommentsByDashboard (resp : ListCommentsResponse) :
    Except String (List CommentResponse) :=
  if respOk resp.status then resp.jsonBody
  else if resp.status = 404 then Except.ok []
  else
    Except.error ("Error fetching comments: " ++ toString resp.status ++ " - " ++
      resp.statusText)

/-- One entry of the validation detail list of an error body. -/
structure ValidationDetail where
  msg : String
  deriving DecidableEq

/-- Template-literal rendering of a detail array, as JavaScript prints it:
each object renders as the text between brackets, joined by commas. -/
def detailStr (l : List ValidationDetail) : String :=
  String.intercalate "," (l.map fun _ => "[object Object]")

/-- Response received by the create-comment call: the status, the parsed
`detail` field of the error body (`none` when the body failed to parse or
carried no detail), and the success body. -/
structure CreateCommentResponse where
  status : Nat
  statusText : String
  errorDetail : Option (List ValidationDetail)
  jsonBody : Except String CommentResponse

/-- `CommentsApiService.createComment`, error branches: a 422 throws a
message joining the detail msg fields with a comma and space (no status
code in the message); any other non-success status throws a message
embedding the status code and either the stringified detail or the status
text. -/
def createComment (resp : CreateCommentResponse) : Except String CommentResponse :=
  if respOk resp.status then resp.jsonBody
  else if resp.status = 422 then
    let validationErrors := resp.errorDetail.getD []
    Except.error ("Validation Error: " ++
      String.intercalate ", " (validationErrors.map ValidationDetail.msg))
  else
    Except.error ("Error creating comment: " ++ toString resp.status ++ " - " ++
      (match resp.errorDetail with
       | some l => detailStr l
       | none => resp.statusText))

/-- Response received by the chat history call. -/
structure ChatHistoryResponse where
  status : Nat
  jsonBody : Except String (List SvcChatMessage)

/-- The body of the try block of `ChatApiService.getMessages`: a non-ok
status throws a fixed message carrying no status code; otherwise the parsed
body is returned (a body parse failure also throws). -/
def chatGetMessagesTry (resp : ChatHistoryResponse) :
    Except String (List SvcChatMessage) :=
  if respOk resp.status then resp.jsonBody
  else Except.error "Failed to fetch messages"

/-- `ChatApiService.getMessages`: the catch block swallows every failure of
the try block and resolves with the empty list, so the caller never
observes an error. -/
def chatGetMessages (resp : ChatHistoryResponse) : List SvcChatMessage :=
  match chatGetMessagesTry resp with
  | Except.ok l => l
  | Except.error _ => []

/-- Events for which reconciliation is idempotent: every update, delete and
unknown event, and every create whose payload carries a truthy `_id`. -/
def eventIdOk : CommentsInbound → Prop
  | CommentsInbound.comment_created r => jsTruthy r._id = true
  | _ => True

/-- Normalized form of the match tests when the payload carries the truthy
identifier `rid`: both collapse to equality of the stored `backendId` with
`some rid`. -/
def ridMatch (rid : String) (c : CommentDef) : Bool :=
  c.backendId == some rid

/-- Normalized form of the entrywise updater under a truthy `_id`. -/
def ridReplace (rid : String) (fr : CommentDef) (c : CommentDef) : CommentDef :=
  if ridMatch rid c then fr else c

/-- A server broadcast payload carrying its identifier in `_id`, used as the
echo of the scenario of the duplication claims. -/
def respC1 : CommentResponse :=
  { _id := some "c1", id := none, dashboard_id := "d1", user_id := "u1",
    user_name := some "Alice", content := "hi", coordinates := [10, 20],
    created_at := "t1", updated_at := "t1" }

/-- A server payload carrying its identifier only in the `id` field, a shape
the source type explicitly allows. -/
def respOnlyId : CommentResponse :=
  { _id := none, id := some "c1", dashboard_id := "d1", user_id := "u1",
    user_name := some "Alice", content := "hi", coordinates := [10, 20],
    created_at := "t1", updated_at := "t1" }

/-- The PENDING temp comment minted at clock 0, as createTemporaryComment
produces it. -/
def tempC1 : CommentDef :=
  (createTemporaryComment [] 0 10 20 (some "Alice") "d1" "u1").fst

/-- An updated-event payload for an identifier unseen by the store. -/
def respC7 : CommentResponse :=
  { _id := some "c7", id := none, dashboard_id := "d1", user_id := "u1",
    user_name := some "Bob", content := "edited", coordinates := [3, 4],
    created_at := "t3", updated_at := "t4" }

/-- A confirmed store entry carrying the identifier of `respC7`. -/
def presentC7 : CommentDef := convertToFrontendComment respC7

/-- A PENDING temp comment minted at clock 5, used to exercise the failing
persist path. -/
def tempW : CommentDef := (createTemporaryComment [] 5 1 2 none "d9" "u9").fst

/-- A 404 response of the list call. -/
def resp404c : ListCommentsResponse :=
  { status := 404, statusText := "Not Found", jsonBody := Except.ok [] }

/-- A 500 response of the list call. -/
def resp500c : ListCommentsResponse :=
  { status := 500, statusText := "Internal Server Error", jsonBody := Except.error "boom" }

/-- A two-entry validation detail list. -/
def detailPair : List ValidationDetail :=
  [{ msg := "field required" }, { msg := "value invalid" }]

/-- A 422 response of the create call carrying a validation detail list. -/
def resp422c : CreateCommentResponse :=
  { status := 422, statusText := "Unprocessable Entity", errorDetail := some detailPair,
    jsonBody := Except.error "unused" }

/-- A 500 response of the create call with an unparseable error body. -/
def resp500create : CreateCommentResponse :=
  { status := 500, statusText := "Internal Server Error", errorDetail := none,
    jsonBody := Except.error "unused" }

/-- A 500 response of the chat history call. -/
def resp500chat : ChatHistoryResponse :=
  { status := 500, jsonBody := Except.error "boom" }

/-- Converting a payload whose `_id` is the nonempty `rid` yields a record
whose `backendId` is `some rid`, whatever the `id` field holds. -/
theorem convert_backendId_of_id (r : CommentResponse) (rid : String)
    (h1 : r._id = some rid) (h2 : rid ≠ "") :
    (convertToFrontendComment r).backendId = some rid := by
  simp [convertToFrontendComment, jsOrS, h1, h2]

/-- The truthiness guard of the duplicate test is redundant once both
disjuncts compare with the same nonempty identifier. -/
theorem truthyRedundant (o : Option String) (rid : String) :
    ((o == some rid) || (jsTruthy o && (o == some rid))) = (o == some rid) := by
  cases hc : (o == some rid) <;> simp [hc]

/-- Under a truthy `_id`, the duplicate test of handleCommentCreated is
exactly the normalized identifier match. -/
theorem createdSeenMatch_eq (r : CommentResponse) (rid : String)
    (h1 : r._id = some rid) (h2 : rid ≠ "") :
    createdSeenMatch (convertToFrontendComment r) r = ridMatch rid := by
  funext c
  unfold createdSeenMatch ridMatch
  rw [convert_backendId_of_id r rid h1 h2, h1]
  exact truthyRedundant c.backendId rid

/-- Under a truthy `_id`, the entrywise updater is exactly the normalized
replacement. -/
theorem updatedReplace_eq (r : CommentResponse) (rid : String)
    (h1 : r._id = some rid) (h2 : rid ≠ "") :
    updatedReplace (convertToFrontendComment r) r =
      ridReplace rid (convertToFrontendComment r) := by
  funext c
  unfold updatedReplace updatedMatch ridReplace ridMatch
  rw [convert_backendId_of_id r rid h1 h2, h1, Bool.or_self]

/-- The converted record matches its own identifier test. -/
theorem updatedMatch_self (frontend : CommentDef) (r : CommentResponse) :
    updatedMatch frontend r frontend = true := by
  unfold updatedMatch
  simp

/-- The entrywise updater is idempotent. -/
theorem updatedReplace_self (frontend : CommentDef) (r : CommentResponse)
    (c : CommentDef) :
    updatedReplace frontend r (updatedReplace frontend r c) =
      updatedReplace frontend r c := by
  unfold updatedReplace
  cases hc : updatedMatch frontend r c <;> simp [hc, updatedMatch_self frontend r]

/-- The normalized replacement is idempotent when the replacement record
matches the identifier. -/
theorem ridReplace_self (rid : String) (fr : CommentDef)
    (hfr : ridMatch rid fr = true) (c : CommentDef) :
    ridReplace rid fr (ridReplace rid fr c) = ridReplace rid fr c := by
  unfold ridReplace
  cases hc : ridMatch rid c <;> simp [hc, hfr]

/-- Mapping the normalized replacement twice equals mapping it once. -/
theorem map_ridReplace_idem (rid : String) (fr : CommentDef)
    (hfr : ridMatch rid fr = true) (l : List CommentDef) :
    (l.map (ridReplace rid fr)).map (ridReplace rid fr) = l.map (ridReplace rid fr) := by
  induction l with
  | nil => rfl
  | cons a t ih => simp only [List.map_cons, ridReplace_self rid fr hfr a, ih]

/-- Mapping the normalized replacement over a list with no matching entry is
the identity. -/
theorem map_ridReplace_id (rid : String) (fr : CommentDef) (l : List CommentDef)
    (h : ∀ c ∈ l, ridMatch rid c = false) :
    l.map (ridReplace rid fr) = l := by
  induction l with
  | nil => rfl
  | cons a t ih =>
    have ha := h a (List.mem_cons_self a t)
    have ht := ih fun c hc => h c (List.mem_cons_of_mem a hc)
    simp only [List.map_cons, ht]
    unfold ridReplace
    rw [ha]
    simp

/-- Normal form of handleCommentCreated under a truthy `_id`: overwrite in
place when the identifier is present, append otherwise. -/
theorem handleCommentCreated_normal (prev : List CommentDef) (r : CommentResponse)
    (rid : String) (h1 : r._id = some rid) (h2 : rid ≠ "") :
    handleCommentCreated prev r =
      if prev.any (ridMatch rid) then
        prev.map (ridReplace rid (convertToFrontendComment r))
      else prev ++ [convertToFrontendComment r] := by
  unfold handleCommentCreated
  rw [createdSeenMatch_eq r rid h1 h2, updatedReplace_eq r rid h1 h2]

/-- handleCommentCreated is idempotent on payloads with a truthy `_id`. -/
theorem handleCommentCreated_idem (prev : List CommentDef) (r : CommentResponse)
    (rid : String) (h1 : r._id = some rid) (h2 : rid ≠ "") :
    handleCommentCreated (handleCommentCreated prev r) r =
      handleCommentCreated prev r := by
  have hfr : ridMatch rid (convertToFrontendComment r) = true := by
    unfold ridMatch
    rw [convert_backendId_of_id r rid h1 h2]
    simp
  rw [handleCommentCreated_normal prev r rid h1 h2]
  by_cases hany : prev.any (ridMatch rid) = true
  · rw [if_pos hany, handleCommentCreated_normal _ r rid h1 h2]
    have hany2 : (prev.map (ridReplace rid (convertToFrontendComment r))).any
        (ridMatch rid) = true := by
      rcases List.any_eq_true.mp hany with ⟨c, hc, hqc⟩
      apply List.any_eq_true.mpr
      refine ⟨ridReplace rid (convertToFrontendComment r) c,
        List.mem_map_of_mem _ hc, ?_⟩
      unfold ridReplace
      rw [hqc]
      simpa using hfr
    rw [if_pos hany2]
    exact map_ridReplace_idem rid _ hfr prev
  · rw [if_neg hany, handleCommentCreated_normal _ r rid h1 h2]
    have hforall : ∀ c ∈ prev, ridMatch rid c = false := by
      intro c hc
      cases hrm : ridMatch rid c with
      | false => rfl
      | true => exact absurd (List.any_eq_true.mpr ⟨c, hc, hrm⟩) hany
    have hany3 : (prev ++ [convertToFrontendComment r]).any (ridMatch rid) = true := by
      apply List.any_eq_true.mpr
      exact ⟨convertToFrontendComment r, by simp, hfr⟩
    rw [if_pos hany3, List.map_append, map_ridReplace_id rid _ prev hforall]
    simp only [List.map_cons, List.map_nil]
    unfold ridReplace
    rw [hfr]
    simp

/-- handleCommentUpdated is idempotent on every payload. -/
theorem handleCommentUpdated_idem (prev : List CommentDef) (r : CommentResponse) :
    handleCommentUpdated (handleCommentUpdated prev r) r =
      handleCommentUpdated prev r := by
  unfold handleCommentUpdated
  induction prev with
  | nil => rfl
  | cons a t ih =>
    simp only [List.map_cons, updatedReplace_self (convertToFrontendComment r) r a, ih]

/-- handleCommentDeleted is idempotent. -/
theorem handleCommentDeleted_idem (prev : List CommentDef) (cid : String) :
    handleCommentDeleted (handleCommentDeleted prev cid) cid =
      handleCommentDeleted prev cid := by
  unfold handleCommentDeleted
  induction prev with
  | nil => rfl
  | cons a t ih =>
    cases hp : (!(a.backendId == some cid)) with
    | false => simp [List.filter_cons, hp, ih]
    | true => simp [List.filter_cons, hp, ih]

/-- C1: the claim states that a locally created and persisted comment whose
created echo also arrives over the stream ends as exactly one entity with
the final remoteId in either arrival order.  Evaluating the source
operations shows the orders disagree: when the echo is applied before the
persist response resolves, the echo is appended (the PENDING record has no
backendId to match) and the persist response then also replaces the PENDING
record, leaving two entities with remoteId c1; when the persist response
resolves first, the echo overwrites in place and exactly one entity
remains. -/
theorem echo_order_duplicates_remote_id :
    countRemote "c1"
        (saveTemporaryComment
          (handleCommentCreated
            (createTemporaryComment [] 0 10 20 (some "Alice") "d1" "u1").snd respC1)
          "temp-0" "hi" (some "Alice") (Except.ok respC1)).store = 2 ∧
    countRemote "c1"
        (handleCommentCreated
          (saveTemporaryComment
            (createTemporaryComment [] 0 10 20 (some "Alice") "d1" "u1").snd
            "temp-0" "hi" (some "Alice") (Except.ok respC1)).store respC1) = 1 := by
  decide

/-- C2 counterexample: an updated event whose remoteId (c7) matches nothing
in the store inserts no entity: the store stays empty, so it does not
afterwards contain exactly one entity with that remoteId as the claim
states. -/
theorem updated_for_unseen_remote_id_drops_event :
    countRemote "c7" (handleCommentUpdated [] respC7) = 0 ∧
    handleCommentUpdated [] respC7 = [] := by
  decide

/-- C2 (amended): an inbound updated event never inserts, whatever shape
its payload has: the store keeps its length and every position holds either
its original entity or that entity overwritten in place by the converted
payload (the overwrite test being the source match, which an id-only
payload extends to PENDING records).  When the payload carries a truthy
`_id` equal to `rid`, the overwrite test reduces to remoteId equality, so
the payload and timestamps are overwritten exactly at the positions holding
`rid`, and when no entity carries that remoteId the store is left entirely
unchanged — the missed create is dropped, not inserted, and nothing
crashes. -/
theorem handleCommentUpdated_spec (prev : List CommentDef) (r : CommentResponse)
    (rid : String) (h1 : r._id = some rid) (h2 : rid ≠ "") :
    (∀ (prev2 : List CommentDef) (r2 : CommentResponse),
      (handleCommentUpdated prev2 r2).length = prev2.length ∧
      ∀ i : Nat, (handleCommentUpdated prev2 r2)[i]? =
        (prev2[i]?).map (updatedReplace (convertToFrontendComment r2) r2)) ∧
    ((∀ c ∈ prev, c.backendId ≠ some rid) → handleCommentUpdated prev r = prev) ∧
    ∀ i : Nat, (handleCommentUpdated prev r)[i]? =
      (prev[i]?).map (ridReplace rid (convertToFrontendComment r)) := by
  refine ⟨?_, ?_, ?_⟩
  · intro prev2 r2
    constructor
    · unfold handleCommentUpdated
      exact List.length_map _ _
    · intro i
      unfold handleCommentUpdated
      exact List.getElem?_map _ _ _
  · intro h
    unfold handleCommentUpdated
    rw [updatedReplace_eq r rid h1 h2]
    apply map_ridReplace_id
    intro c hc
    unfold ridMatch
    exact beq_eq_false_iff_ne.mpr (h c hc)
  · intro i
    unfold handleCommentUpdated
    rw [updatedReplace_eq r rid h1 h2]
    exact List.getElem?_map _ _ _

/-- Witness for the amended C2 theorem: at a store holding the entity with
remoteId c7 the payload overwrites position 0 in place, and at a store
holding only a PENDING record (no entity with remoteId c7) the same
truthy-id payload leaves the store unchanged. -/
theorem handleCommentUpdated_spec_witness :
    (handleCommentUpdated [presentC7] respC7)[0]? =
      some (convertToFrontendComment respC7) ∧
    handleCommentUpdated [tempC1] respC7 = [tempC1] := by
  constructor
  · have h := (handleCommentUpdated_spec [presentC7] respC7 "c7" rfl (by decide)).2.2 0
    rw [h]
    decide
  · exact (handleCommentUpdated_spec [tempC1] respC7 "c7" rfl (by decide)).2.1 (by decide)

/-- C3 counterexample: the chat hook computes the delay from the attempt
counter before incrementing it, so the very first unexpected close (0
attempts so far, fewer than 5) schedules the reconnect after 1000 ms, not
after the 2000 ms the claim gives for attempt 1. -/
theorem chat_first_close_delay_small :
    chatOnClose 0 = CloseAction.reconnect 1000 1 ∧ (1000 : Nat) ≠ 2000 := by
  decide

/-- C3 (amended): after 5 attempts neither hook schedules another automatic
reconnect (the chat hook surfaces a terminal error message, the comments
hook surfaces nothing); the comments hook increments the counter before
computing min(1000 * 2 ^ attempt, 10000), giving delays 2000, 4000, 8000,
10000, 10000 for attempts 1..5, while the chat hook computes the delay from
the pre-increment counter, giving 1000, 2000, 4000, 8000, 10000. -/
theorem reconnect_backoff_spec (n : Nat) (h : 5 ≤ n) :
    (commentsOnClose n = CloseAction.giveUp none ∧
      chatOnClose n = CloseAction.giveUp
        (some "Failed to connect after multiple attempts")) ∧
    (commentsOnClose 0 = CloseAction.reconnect 2000 1 ∧
      commentsOnClose 1 = CloseAction.reconnect 4000 2 ∧
      commentsOnClose 2 = CloseAction.reconnect 8000 3 ∧
      commentsOnClose 3 = CloseAction.reconnect 10000 4 ∧
      commentsOnClose 4 = CloseAction.reconnect 10000 5) ∧
    (chatOnClose 0 = CloseAction.reconnect 1000 1 ∧
      chatOnClose 1 = CloseAction.reconnect 2000 2 ∧
      chatOnClose 2 = CloseAction.reconnect 4000 3 ∧
      chatOnClose 3 = CloseAction.reconnect 8000 4 ∧
      chatOnClose 4 = CloseAction.reconnect 10000 5) := by
  refine ⟨⟨?_, ?_⟩, ⟨by decide, by decide, by decide, by decide, by decide⟩,
    ⟨by decide, by decide, by decide, by decide, by decide⟩⟩
  · unfold commentsOnClose
    rw [if_neg (by omega)]
  · unfold chatOnClose
    rw [if_neg (by omega)]

/-- Witness for the amended C3 theorem: at 7 recorded attempts both close
handlers stop retrying. -/
theorem reconnect_backoff_spec_witness :
    commentsOnClose 7 = CloseAction.giveUp none ∧
    chatOnClose 7 = CloseAction.giveUp
      (some "Failed to connect after multiple attempts") :=
  (reconnect_backoff_spec 7 (by decide)).1

/-- C4 counterexample: a created event whose payload carries the identifier
only in the `id` field (no `_id`) is not idempotent when a PENDING record
is in the store: on the first application the duplicate test fails (the
truthiness guard rejects the absent backendId) and the record is appended,
but on the second application the overwrite map, lacking that guard, also
replaces the PENDING record, changing the store again. -/
theorem created_without_id_not_idempotent :
    applyCommentEvent
        (applyCommentEvent [tempC1] (CommentsInbound.comment_created respOnlyId))
        (CommentsInbound.comment_created respOnlyId) ≠
      applyCommentEvent [tempC1] (CommentsInbound.comment_created respOnlyId) := by
  decide

/-- C4 (amended): applying a server event twice yields the same store as
applying it once for every updated, deleted and unknown event, and for
every created event whose payload carries a truthy `_id` field. -/
theorem applyCommentEvent_idempotent (store : List CommentDef) (e : CommentsInbound)
    (h : eventIdOk e) :
    applyCommentEvent (applyCommentEvent store e) e = applyCommentEvent store e := by
  cases e with
  | comment_created r =>
    have h' : jsTruthy r._id = true := h
    obtain ⟨rid, h1, h2⟩ : ∃ rid, r._id = some rid ∧ rid ≠ "" := by
      cases hr : r._id with
      | none =>
        rw [hr] at h'
        exact absurd h' (by simp [jsTruthy])
      | some s =>
        refine ⟨s, rfl, ?_⟩
        rw [hr] at h'
        simpa [jsTruthy] using h'
    exact handleCommentCreated_idem store r rid h1 h2
  | comment_updated r => exact handleCommentUpdated_idem store r
  | comment_deleted cid => exact handleCommentDeleted_idem store cid
  | unknownType t => rfl

/-- Witness for the amended C4 theorem: the echo payload with a truthy
`_id` applied twice over a store holding a PENDING record equals one
application. -/
theorem applyCommentEvent_idempotent_witness :
    eventIdOk (CommentsInbound.comment_created respC1) ∧
    applyCommentEvent
        (applyCommentEvent [tempC1] (CommentsInbound.comment_created respC1))
        (CommentsInbound.comment_created respC1) =
      applyCommentEvent [tempC1] (CommentsInbound.comment_created respC1) :=
  ⟨rfl, applyCommentEvent_idempotent [tempC1] _ rfl⟩

/-- C5: when the create call of saveTemporaryComment throws, the error is
rethrown to the caller and the store is returned untouched: the PENDING
record (and everything else) is exactly as before the call. -/
theorem saveTemporaryComment_failure_spec (prev : List CommentDef)
    (tempId text e : String) (storedName : Option String) (c : CommentDef)
    (h : prev.find? (fun x => x.id == tempId) = some c) :
    saveTemporaryComment prev tempId text storedName (Except.error e) =
      { outcome := SaveOutcome.failed e
        request := some (convertToBackendComment { c with text := text })
        store := prev } := by
  unfold saveTemporaryComment
  rw [h]

/-- Witness for the C5 theorem: a concrete failing persist of the PENDING
record minted at clock 5 leaves the store equal to what it was. -/
theorem saveTemporaryComment_failure_witness :
    saveTemporaryComment [tempW] "temp-5" "draft" none (Except.error "network down") =
      { outcome := SaveOutcome.failed "network down"
        request := some (convertToBackendComment { tempW with text := "draft" })
        store := [tempW] } :=
  saveTemporaryComment_failure_spec [tempW] "temp-5" "draft" "network down" none tempW
    (by decide)

/-- C6 counterexample: ChatApiService.sendMessage is one of the send
operations the claim covers, yet while not OPEN its call evaluates to
undefined (it is a void method with no return statement), not to false; it
does transmit and queue nothing. -/
theorem service_send_void_not_false :
    (chatApiSendMessage (some WsReadyState.CLOSED) "hi" "u1" "Alice" "d1" 0 "r" "t").ret ≠
        some false ∧
      (chatApiSendMessage (some WsReadyState.CLOSED) "hi" "u1" "Alice" "d1" 0 "r" "t").sent
          = [] ∧
      (chatApiSendMessage (some WsReadyState.CLOSED) "hi" "u1" "Alice" "d1" 0 "r"
          "t").notified = [] := by
  decide

/-- C6 (amended): while the connection is not OPEN, the chat hook
sendMessage returns false setting the not-connected error, the global
sendChatWsEvent helper returns false, and ChatApiService.sendMessage
returns undefined; none of them throws (all are total functions here) and
none transmits or queues any outbound frame. -/
theorem send_while_not_open_spec (ws : Option WsReadyState)
    (message ty payload uid un did randomSuffix nowIso : String) (sendFails : Bool)
    (nowMs : Nat) (h : ws ≠ some WsReadyState.OPEN) :
    sendMessage ws message sendFails =
      { ret := false, sent := [], errorSet := some "Not connected to chat" } ∧
    sendChatWsEvent ws ty payload sendFails = (false, []) ∧
    chatApiSendMessage ws message uid un did nowMs randomSuffix nowIso =
      { ret := none, sent := [], notified := [] } := by
  refine ⟨?_, ?_, ?_⟩
  · unfold sendMessage
    rw [if_pos h]
  · unfold sendChatWsEvent
    rw [if_pos h]
  · unfold chatApiSendMessage
    rw [if_neg h]

/-- Witness for the amended C6 theorem with an absent socket. -/
theorem send_while_not_open_witness :
    sendMessage none "hello" false =
      { ret := false, sent := [], errorSet := some "Not connected to chat" } ∧
    sendChatWsEvent none "t" "p" false = (false, []) ∧
    chatApiSendMessage none "hello" "u" "n" "d" 0 "r" "iso" =
      { ret := none, sent := [], notified := [] } :=
  send_while_not_open_spec none "hello" "t" "p" "u" "n" "d" "r" "iso" false 0 (by decide)

/-- C7: a 404 on the comments list call resolves with the empty list as a
success, and every other non-success status throws an error embedding the
status code and status text. -/
theorem getComments_404_empty_other_error (resp resp2 : ListCommentsResponse)
    (h404 : resp.status = 404) (hok : respOk resp2.status = false)
    (hne : resp2.status ≠ 404) :
    getCommentsByDashboard resp = Except.ok [] ∧
    getCommentsByDashboard resp2 =
      Except.error ("Error fetching comments: " ++ toString resp2.status ++ " - " ++
        resp2.statusText) := by
  constructor
  · have hr : respOk 404 = false := by decide
    unfold getCommentsByDashboard
    rw [h404, hr]
    simp
  · unfold getCommentsByDashboard
    rw [hok]
    simp [hne]

/-- Witness for the C7 theorem at a 404 response and a 500 response. -/
theorem getComments_404_witness :
    getCommentsByDashboard resp404c = Except.ok [] ∧
    getCommentsByDashboard resp500c =
      Except.error ("Error fetching comments: " ++ toString resp500c.status ++ " - " ++
        resp500c.statusText) :=
  getComments_404_empty_other_error resp404c resp500c rfl (by decide) (by decide)

/-- C8 counterexample: the chat history gateway call with a 500 response
resolves successfully with the empty list — no typed error carrying the
status reaches the caller, and even the internal thrown message carries no
status code; and the 422 branch of the create call builds the message only
from the detail msg fields, without the status code. -/
theorem chat_error_swallowed_and_422_message :
    chatGetMessages resp500chat = [] ∧
    createComment resp422c = Except.error "Validation Error: field required, value invalid" := by
  constructor
  · rfl
  · rfl

/-- C8 (amended): on a non-success status the comments create call throws:
for a 422 the message is the detail msg fields joined by comma-space
(without the status code), and for any other status a message embedding the
status code and the stringified detail or status text; the chat history
call instead swallows every failure and resolves with the empty list. -/
theorem remote_fetch_error_spec (resp : CreateCommentResponse)
    (chatResp : ChatHistoryResponse) (hok : respOk resp.status = false)
    (hchat : respOk chatResp.status = false) :
    (resp.status = 422 →
      createComment resp = Except.error ("Validation Error: " ++
        String.intercalate ", " ((resp.errorDetail.getD []).map ValidationDetail.msg))) ∧
    (resp.status ≠ 422 →
      createComment resp = Except.error ("Error creating comment: " ++
        toString resp.status ++ " - " ++
        (match resp.errorDetail with
         | some l => detailStr l
         | none => resp.statusText))) ∧
    chatGetMessages chatResp = [] := by
  refine ⟨?_, ?_, ?_⟩
  · intro h422
    unfold createComment
    rw [hok, h422]
    simp
  · intro hne
    unfold createComment
    rw [hok]
    simp [hne]
  · unfold chatGetMessages chatGetMessagesTry
    rw [hchat]
    simp

/-- Witness for the amended C8 theorem at a 422 create response, a 500
create response and a 500 chat history response. -/
theorem remote_fetch_error_witness :
    createComment resp422c = Except.error ("Validation Error: " ++
      String.intercalate ", " ((resp422c.errorDetail.getD []).map ValidationDetail.msg)) ∧
    createComment resp500create = Except.error ("Error creating comment: " ++
      toString resp500create.status ++ " - " ++ resp500create.statusText) ∧
    chatGetMessages resp500chat = [] := by
  have h1 := remote_fetch_error_spec resp422c resp500chat (by decide) (by decide)
  have h2 := remote_fetch_error_spec resp500create resp500chat (by decide) (by decide)
  exact ⟨h1.1 rfl, h2.2.1 (by decide), h1.2.2⟩

/-- C9: an inbound frame whose payload fails JSON parsing is dropped by
both message handlers: the chat state (messages, connected users, error)
and the comment store are unchanged, and no side effect (user refetch,
comment event dispatch) fires.  Both handlers are total functions of the
parse result, mirroring the try/catch of the source, so no exception
escapes them, and closing the connection is not among the effects either
can produce. -/
theorem invalid_frame_leaves_stores (st : ChatState) (nowMs : Nat)
    (store : List CommentDef) (e1 e2 : String) :
    chatOnMessage st nowMs (Except.error e1) =
      { state := st, fetchedUsers := false, dispatchedCommentCreated := false } ∧
    commentsOnMessage store (Except.error e2) = store :=
  ⟨rfl, rfl⟩

/-- C10: while the socket is OPEN, a message that trims to the empty string
makes sendMessage return false with nothing transmitted and no error set;
and whenever sendMessage transmits at all, the single transmitted frame
carries the trimmed input as its content. -/
theorem sendMessage_trim_spec (ws : Option WsReadyState) (msg : String)
    (sendFails : Bool) :
    (ws = some WsReadyState.OPEN → jsTrim msg = "" →
      sendMessage ws msg sendFails = { ret := false, sent := [], errorSet := none }) ∧
    ((sendMessage ws msg sendFails).sent ≠ [] →
      (sendMessage ws msg sendFails).sent =
        [{ type := "chat_message", message := jsTrim msg }]) := by
  constructor
  · intro hws htrim
    subst hws
    unfold sendMessage
    rw [if_neg (by simp), if_pos htrim]
  · intro hsent
    by_cases h1 : ws ≠ some WsReadyState.OPEN
    · simp [sendMessage, h1] at hsent
    · rw [ne_eq, not_not] at h1
      subst h1
      by_cases h2 : jsTrim msg = ""
      · simp [sendMessage, h2] at hsent
      · cases sendFails with
        | true => simp [sendMessage, h2] at hsent
        | false => simp [sendMessage, h2]

/-- Witness for the C10 theorem: a whitespace-only message is rejected while
OPEN, and a padded message is transmitted trimmed. -/
theorem sendMessage_trim_witness :
    sendMessage (some WsReadyState.OPEN) " \t" false =
      { ret := false, sent := [], errorSet := none } ∧
    (sendMessage (some WsReadyState.OPEN) " hi " false).sent =
      [{ type := "chat_message", message := jsTrim " hi " }] := by
  constructor
  · exact (sendMessage_trim_spec (some WsReadyState.OPEN) " \t" false).1 rfl (by decide)
  · exact (sendMessage_trim_spec (some WsReadyState.OPEN) " hi " false).2 (by decide)
